import Mathlib

/-!
Verification of the SignalScan tiered scanning pipeline.

Shallow embedding of the scanner components in `src/scanners/`:
Tier-1 yfinance prefilter, Tier-2 Alpaca validator, Tier-3 Tradier
categorizer, the news aggregator and the halt monitor.  Prices, volumes
and timestamps are modelled as rationals; Python values that may be a
number or `None` are modelled as `Option ℚ`, and a dictionary key that
may be absent is likewise `none`.  Vault documents (persisted via the
`FileManager`, whose module is not part of the scanner sources) are
modelled from the spec as in-memory mappings that each save replaces
atomically in full.
-/

set_option maxHeartbeats 1000000

namespace SignalScan

/-! ## Generic list chunking

`tickers[i:i+batch_size]` style loops in `Tier1YFinance.filter_tickers`
(batches of 100) and `TradierCategorizer._update_subscriptions`
(batches of 50). -/

/-- Split a list into consecutive chunks of size `n` (the final chunk may be
shorter).  Returns `[]` when `n = 0`, a case no caller exercises. -/
def chunkList (n : ℕ) : List α → List (List α)
  | [] => []
  | x :: xs =>
    if h2 : n = 0 then []
    else (x :: xs).take n :: chunkList n ((x :: xs).drop n)
termination_by l => l.length
decreasing_by
  simp only [List.length_drop, List.length_cons]
  omega

theorem chunkList_flatten (n : ℕ) (hn : n ≠ 0) (l : List α) :
    (chunkList n l).flatten = l := by
  induction l using chunkList.induct n with
  | case1 => simp [chunkList]
  | case2 x xs h2 => exact absurd h2 hn
  | case3 x xs h2 ih =>
    rw [chunkList]
    simp only [dif_neg h2, List.flatten_cons, ih]
    exact List.take_append_drop n (x :: xs)

theorem chunkList_length_le (n : ℕ) (l : List α) :
    ∀ b ∈ chunkList n l, b.length ≤ n := by
  induction l using chunkList.induct n with
  | case1 => simp [chunkList]
  | case2 x xs h2 => subst h2; simp [chunkList]
  | case3 x xs h2 ih =>
    rw [chunkList]
    simp only [dif_neg h2, List.mem_cons]
    rintro b (rfl | hb)
    · exact List.length_take_le n (x :: xs)
    · exact ih b hb

/-! ## Tier-1: yfinance prefilter (`src/scanners/tier1_yfinance.py`) -/

/-- The fields of the yfinance `ticker.info` dictionary that
`Tier1YFinance.filter_tickers` reads for one symbol.  `fetchError` models the
per-symbol exception that the loop swallows with `continue`; a numeric field
is `none` when the key is absent or `None`. -/
structure TickerInfo where
  currentPrice : Option ℚ
  regularMarketPrice : Option ℚ
  averageVolume : Option ℚ
  averageVolume10days : Option ℚ
  fetchError : Bool
deriving DecidableEq

/-- Python truthiness of a number-or-None value: `None` and `0` are falsy. -/
def truthy : Option ℚ → Bool
  | none => false
  | some q => q != 0

/-- Python `a or b` on number-or-None values: `a` if truthy, else `b`. -/
def pyOr (a b : Option ℚ) : Option ℚ :=
  if truthy a then a else b

/-- The filter's price sample: `info.get('currentPrice') or info.get('regularMarketPrice')`. -/
def effectivePrice (t : TickerInfo) : Option ℚ :=
  pyOr t.currentPrice t.regularMarketPrice

/-- The filter's volume sample: `info.get('averageVolume') or info.get('averageVolume10days')`. -/
def effectiveVolume (t : TickerInfo) : Option ℚ :=
  pyOr t.averageVolume t.averageVolume10days

/-- The body of the per-symbol loop in `Tier1YFinance.filter_tickers`:
the symbol is kept iff its info fetch does not raise, its price and volume
are truthy (`if not price: continue`, `if not volume: continue`), and
`volume > 5_000_000 and .75 < price < 17.00`. -/
def passesFilter (info : String → TickerInfo) (s : String) : Bool :=
  let t := info s
  if t.fetchError then false
  else
    match effectivePrice t with
    | none => false
    | some p =>
      if p = 0 then false
      else
        match effectiveVolume t with
        | none => false
        | some v =>
          if v = 0 then false
          else decide (5000000 < v ∧ (0.75 : ℚ) < p ∧ p < 17)

/-- Embedding of `Tier1YFinance.filter_tickers`: iterate the universe in batches of 100
(rate limiting), collecting the symbols that pass the screen, in order. -/
def filter_tickers (info : String → TickerInfo) (tickers : List String) :
    List String :=
  ((chunkList 100 tickers).map (fun b => b.filter (passesFilter info))).flatten

theorem filter_tickers_eq_filter (info : String → TickerInfo)
    (tickers : List String) :
    filter_tickers info tickers = tickers.filter (passesFilter info) := by
  unfold filter_tickers
  induction tickers using chunkList.induct 100 with
  | case1 => simp [chunkList]
  | case2 x xs h2 => exact absurd h2 (by omega)
  | case3 x xs h2 ih =>
    rw [chunkList]
    simp only [dif_neg h2, List.map_cons, List.flatten_cons, ih]
    rw [← List.filter_append, List.take_append_drop]

/-- Embedding of `Tier1YFinance.run_scan`: load the universe, and if it is empty abort the
cycle (`if not tickers: return`) leaving the previously saved Prefiltered Set
untouched; otherwise save the filtered list.

The save goes through `FileManager.save_prefilter`.  Modelled from the spec:
`core/file_manager.py` is not among the sources, and spec §4.1/§4.2 specify
the save as an atomic full replacement of the vault document (no merge). -/
def run_scan (info : String → TickerInfo) (tickers : List String)
    (prefilterVault : List String) : List String :=
  if tickers = [] then prefilterVault
  else filter_tickers info tickers

theorem passesFilter_iff (info : String → TickerInfo) (s : String) :
    passesFilter info s = true ↔
      (info s).fetchError = false ∧
      ∃ p v, effectivePrice (info s) = some p ∧
        effectiveVolume (info s) = some v ∧
        5000000 < v ∧ (0.75 : ℚ) < p ∧ p < 17 := by
  unfold passesFilter
  cases hfe : (info s).fetchError with
  | true => simp [hfe]
  | false =>
    simp only [hfe, Bool.false_eq_true, if_false, true_and]
    cases hp : effectivePrice (info s) with
    | none => simp [hp]
    | some p =>
      cases hv : effectiveVolume (info s) with
      | none =>
        by_cases hp0 : p = 0 <;> simp [hp, hv, hp0]
      | some v =>
        by_cases hp0 : p = 0
        · subst hp0
          simp only [if_pos rfl, hp, hv]
          constructor
          · intro hc; cases hc
          · rintro ⟨q, w, hq, hw, h1, h2, h3⟩
            cases hq
            exact absurd h2 (by norm_num)
        · by_cases hv0 : v = 0
          · subst hv0
            simp only [if_neg hp0, if_pos rfl, hp, hv]
            constructor
            · intro hc; cases hc
            · rintro ⟨q, w, hq, hw, h1, h2, h3⟩
              cases hw
              exact absurd h1 (by norm_num)
          · simp only [if_neg hp0, if_neg hv0, decide_eq_true_eq, hp, hv]
            constructor
            · rintro ⟨h1, h2, h3⟩
              exact ⟨p, v, rfl, rfl, h1, h2, h3⟩
            · rintro ⟨q, w, hq, hw, h1, h2, h3⟩
              cases hq; cases hw
              exact ⟨h1, h2, h3⟩

/-- C1: for every universe of tickers, a Tier-1 `run_scan` cycle (one that
actually scans, i.e. the loaded universe is nonempty) admits a symbol into the
saved Prefiltered Set iff its average volume is strictly greater than
5,000,000 and its price is strictly between 0.75 and 17.00, symbols whose
price or volume data is unavailable (absent, `None`, falsy, or lost to a
fetch error) being excluded; and the saved set contains exactly the symbols
passing in this cycle — no symbol of the previously saved set survives unless
it passes again. -/
theorem c1_tier1_prefilter (info : String → TickerInfo)
    (tickers prefilterVault : List String) (hne : tickers ≠ []) (s : String) :
    s ∈ run_scan info tickers prefilterVault ↔
      s ∈ tickers ∧ (info s).fetchError = false ∧
      ∃ p v, effectivePrice (info s) = some p ∧
        effectiveVolume (info s) = some v ∧
        5000000 < v ∧ (0.75 : ℚ) < p ∧ p < 17 := by
  unfold run_scan
  rw [if_neg hne, filter_tickers_eq_filter, List.mem_filter, passesFilter_iff]

/-- The spec §8 scenario as market data: AAA has volume 6,000,000 and price
5.00, BBB has volume 1,000,000 and price 5.00. -/
def scenarioInfo : String → TickerInfo := fun s =>
  if s = "AAA" then
    ⟨some 5, none, some 6000000, none, false⟩
  else
    ⟨some 5, none, some 1000000, none, false⟩

/-- Witness for C1 at the spec §8 scenario: universe {AAA, BBB}, stale vault
{OLD}; AAA passes. -/
theorem c1_tier1_prefilter_witness :
    (["AAA", "BBB"] : List String) ≠ [] ∧
      ("AAA" ∈ run_scan scenarioInfo ["AAA", "BBB"] ["OLD"] ↔
        "AAA" ∈ (["AAA", "BBB"] : List String) ∧
        (scenarioInfo "AAA").fetchError = false ∧
        ∃ p v, effectivePrice (scenarioInfo "AAA") = some p ∧
          effectiveVolume (scenarioInfo "AAA") = some v ∧
          5000000 < v ∧ (0.75 : ℚ) < p ∧ p < 17) :=
  ⟨by decide, c1_tier1_prefilter scenarioInfo ["AAA", "BBB"] ["OLD"]
      (by decide) "AAA"⟩

/-! ## News aggregator (`src/scanners/news_aggregator.py`) -/

/-- A canonical news item as built by `_handle_alpaca_news` and the
`_fetch_*` provider adapters; `timestamp` is the item's publication time in
seconds. -/
structure NewsItem where
  newsId : String
  symbol : String
  headline : String
  source : String
  url : String
  timestamp : ℚ
deriving DecidableEq

inductive NewsCategory
  | breaking
  | general
deriving DecidableEq

/-- Modelled from the spec: `categorize_news_by_age` is imported from
`config/keywords.py`, which is not among the sources.  Spec §4.5: age ≤ 2
hours → "breaking"; otherwise age ≤ 72 hours → "general"; older items are not
persisted (`none`).  The headline argument mirrors the call site's signature;
the spec's classification clause depends on age only. -/
def categorize_news_by_age (headline : String) (ageHours : ℚ) :
    Option NewsCategory :=
  if ageHours ≤ 2 then some NewsCategory.breaking
  else if ageHours ≤ 72 then some NewsCategory.general
  else none

/-- The record persisted for a news item:
`{**item, 'age_hours': age_hours, 'category': ...}`. -/
structure StoredNews where
  item : NewsItem
  ageHours : ℚ
  category : NewsCategory
deriving DecidableEq

/-- The news-side state of the aggregator: the monotonically-growing
`seen_news_ids` set, plus the two vault documents `bkgnews.json` (breaking)
and `news.json` (general), each a mapping news-id → record.  Modelled from
the spec: the documents are loaded, updated and saved whole through the
`FileManager` (not among the sources), per §4.1 an atomic full replacement. -/
structure NewsState where
  seenNewsIds : List String
  bkgnews : String → Option StoredNews
  news : String → Option StoredNews

/-- Python dict assignment `d[k] = v` on a vault document. -/
def updDoc (m : String → Option StoredNews) (k : String) (v : StoredNews) :
    String → Option StoredNews :=
  fun k2 => if k2 = k then some v else m k2

/-- Embedding of `NewsAggregator._process_news_item` for one item at wall-clock time
`now` (seconds): de-duplicate against `seen_news_ids`, drop excluded
headlines (`should_exclude` lives in the absent `config/keywords.py` and is
taken as an arbitrary predicate), compute `age_hours`, categorize, and
persist into the matching vault document. -/
def process_news_item (exclude : String → Bool) (now : ℚ) (st : NewsState)
    (item : NewsItem) : NewsState :=
  if item.newsId ∈ st.seenNewsIds then st
  else
    let st1 : NewsState := { st with seenNewsIds := item.newsId :: st.seenNewsIds }
    if exclude item.headline then st1
    else
      let ageHours := (now - item.timestamp) / 3600
      match categorize_news_by_age item.headline ageHours with
      | some NewsCategory.breaking =>
          { st1 with
            bkgnews := updDoc st1.bkgnews item.newsId
              ⟨item, ageHours, NewsCategory.breaking⟩ }
      | some NewsCategory.general =>
          { st1 with
            news := updDoc st1.news item.newsId
              ⟨item, ageHours, NewsCategory.general⟩ }
      | none => st1

theorem mem_seen_after_process (exclude : String → Bool) (now : ℚ)
    (st : NewsState) (item : NewsItem) :
    item.newsId ∈ (process_news_item exclude now st item).seenNewsIds := by
  unfold process_news_item
  by_cases h : item.newsId ∈ st.seenNewsIds
  · simp [h]
  · simp only [if_neg h]
    by_cases h2 : exclude item.headline
    · simp [h2]
    · simp only [if_neg h2]
      cases hc : categorize_news_by_age item.headline
          ((now - item.timestamp) / 3600) with
      | none => simp
      | some c => cases c <;> simp

theorem process_seen_eq_self (exclude : String → Bool) (now : ℚ)
    (st : NewsState) (item : NewsItem)
    (h : item.newsId ∈ st.seenNewsIds) :
    process_news_item exclude now st item = st := by
  unfold process_news_item
  simp [h]

/-- C2: news items with identical ids are persisted at most once.
Whatever combination of sources (primary push feed, secondary pull
providers) presents the two items and whatever wall-clock times the two
processing calls happen at, processing an item and then a second item
bearing the same id leaves the state of the first processing unchanged:
the second presentation persists nothing and both news vault documents
(and the seen-id set) stay exactly as they were. -/
theorem c2_news_dedup (exclude : String → Bool) (now1 now2 : ℚ)
    (st : NewsState) (item item2 : NewsItem)
    (hid : item2.newsId = item.newsId) :
    process_news_item exclude now2 (process_news_item exclude now1 st item)
      item2 = process_news_item exclude now1 st item := by
  apply process_seen_eq_self
  rw [hid]
  exact mem_seen_after_process exclude now1 st item

/-- Witness for C2: a concrete duplicate pair. -/
theorem c2_news_dedup_witness :
    (NewsItem.mk "n1" "AAA" "h2" "s" "u" 0).newsId =
        (NewsItem.mk "n1" "AAA" "h1" "s" "u" 0).newsId ∧
      process_news_item (fun _ => false) 7200
          (process_news_item (fun _ => false) 3600
            ⟨[], fun _ => none, fun _ => none⟩
            (NewsItem.mk "n1" "AAA" "h1" "s" "u" 0))
          (NewsItem.mk "n1" "AAA" "h2" "s" "u" 0) =
        process_news_item (fun _ => false) 3600
          ⟨[], fun _ => none, fun _ => none⟩
          (NewsItem.mk "n1" "AAA" "h1" "s" "u" 0) :=
  ⟨rfl, c2_news_dedup (fun _ => false) 3600 7200
    ⟨[], fun _ => none, fun _ => none⟩
    (NewsItem.mk "n1" "AAA" "h1" "s" "u" 0)
    (NewsItem.mk "n1" "AAA" "h2" "s" "u" 0) rfl⟩

/-- C3: for every non-excluded, not-yet-seen news item processed at time
`now`, with `age = (now - timestamp) / 3600` hours: age ≤ 2 persists the
item into the breaking-news vault with category "breaking" and leaves the
general vault untouched; 2 < age ≤ 72 persists it into the general-news
vault with category "general" and leaves the breaking vault untouched;
age > 72 persists it into neither vault and raises no error.  The boundary
ages {1h59m, 2h00m, 2h01m, 71h59m, 72h01m} fall under breaking, breaking,
general, general, dropped respectively. -/
theorem c3_news_age_classification (exclude : String → Bool) (now : ℚ)
    (st : NewsState) (item : NewsItem)
    (hseen : item.newsId ∉ st.seenNewsIds)
    (hexcl : exclude item.headline = false) :
    ((now - item.timestamp) / 3600 ≤ 2 →
      (process_news_item exclude now st item).bkgnews item.newsId =
          some ⟨item, (now - item.timestamp) / 3600, NewsCategory.breaking⟩ ∧
        (process_news_item exclude now st item).news = st.news) ∧
    (2 < (now - item.timestamp) / 3600 → (now - item.timestamp) / 3600 ≤ 72 →
      (process_news_item exclude now st item).news item.newsId =
          some ⟨item, (now - item.timestamp) / 3600, NewsCategory.general⟩ ∧
        (process_news_item exclude now st item).bkgnews = st.bkgnews) ∧
    (72 < (now - item.timestamp) / 3600 →
      (process_news_item exclude now st item).bkgnews = st.bkgnews ∧
        (process_news_item exclude now st item).news = st.news) := by
  unfold process_news_item categorize_news_by_age
  simp only [if_neg hseen, hexcl, Bool.false_eq_true, if_false]
  refine ⟨fun h2 => ?_, fun h2 h72 => ?_, fun h72 => ?_⟩
  · simp [if_pos h2, updDoc]
  · simp [if_neg (not_le.mpr h2), if_pos h72, updDoc]
  · simp [if_neg (not_le.mpr (by linarith : (2:ℚ) < (now - item.timestamp) / 3600)),
      if_neg (not_le.mpr h72)]

/-- Witness for C3: an item aged exactly 2h00m (7200 s) is persisted as
breaking. -/
theorem c3_news_age_classification_witness :
    ((("n2" : String) ∈ ([] : List String)) = False) ∧
      ((fun (_ : String) => false) "h" = false) ∧
      ((7200 - 0 : ℚ) / 3600 ≤ 2 →
        (process_news_item (fun _ => false) 7200
            ⟨[], fun _ => none, fun _ => none⟩
            (NewsItem.mk "n2" "AAA" "h" "s" "u" 0)).bkgnews "n2" =
            some ⟨NewsItem.mk "n2" "AAA" "h" "s" "u" 0, (7200 - 0) / 3600,
              NewsCategory.breaking⟩ ∧
          (process_news_item (fun _ => false) 7200
            ⟨[], fun _ => none, fun _ => none⟩
            (NewsItem.mk "n2" "AAA" "h" "s" "u" 0)).news =
            (⟨[], fun _ => none, fun _ => none⟩ : NewsState).news) :=
  ⟨by simp, rfl,
    (c3_news_age_classification (fun _ => false) 7200
      ⟨[], fun _ => none, fun _ => none⟩
      (NewsItem.mk "n2" "AAA" "h" "s" "u" 0)
      (by simp) rfl).1⟩

/-! ## Secondary provider rotation (`NewsAggregator._run_secondary`) -/

/-- The ordered secondary provider list of `NewsAggregator.__init__`. -/
def secondary_providers : List String :=
  ["polygon", "marketaux", "fmp", "newsapi", "alphavantage", "finnhub"]

/-- The aggregator state seen by the secondary loop: the rotation index and
the shared news state. -/
structure SecondaryState where
  currentProviderIndex : ℕ
  newsState : NewsState

/-- Embedding of `NewsAggregator._rotate_provider`. -/
def rotate_provider (i : ℕ) : ℕ :=
  (i + 1) % secondary_providers.length

/-- One iteration of `NewsAggregator._run_secondary`: fetch from the
provider at the current rotation index; a non-empty result is processed
item by item through `_process_news_item` with the index left untouched,
a zero-item result rotates the index to the next provider. -/
def run_secondary_cycle (fetch : String → List NewsItem)
    (exclude : String → Bool) (now : ℚ) (st : SecondaryState) :
    SecondaryState :=
  if (fetch (secondary_providers.getD st.currentProviderIndex "")).isEmpty then
    { st with currentProviderIndex := rotate_provider st.currentProviderIndex }
  else
    { st with
      newsState :=
        (fetch (secondary_providers.getD st.currentProviderIndex "")).foldl
          (process_news_item exclude now) st.newsState }

/-- C5: on every secondary fetch cycle, if the provider at the current
rotation index returns zero items the index advances by one modulo the
provider-list length (wrapping past the end) and the news state is left
unchanged; if it returns a non-empty list, its items are processed in order
through the shared processing step and the rotation index is left exactly
where it was — a success never resets it.  (Consequently, with the first two
providers returning zero items and the third returning items, three
consecutive cycles visit indices 0, 1, 2, the third provider's items are
persisted, and the index remains at 2 — see the witness.) -/
theorem c5_provider_rotation (fetch : String → List NewsItem)
    (exclude : String → Bool) (now : ℚ) (st : SecondaryState) :
    (fetch (secondary_providers.getD st.currentProviderIndex "") = [] →
      run_secondary_cycle fetch exclude now st =
        { st with
          currentProviderIndex := (st.currentProviderIndex + 1) % 6 }) ∧
    (fetch (secondary_providers.getD st.currentProviderIndex "") ≠ [] →
      (run_secondary_cycle fetch exclude now st).currentProviderIndex =
          st.currentProviderIndex ∧
        (run_secondary_cycle fetch exclude now st).newsState =
          (fetch (secondary_providers.getD st.currentProviderIndex
              "")).foldl (process_news_item exclude now) st.newsState) := by
  constructor
  · intro h
    unfold run_secondary_cycle rotate_provider
    rw [h]
    rfl
  · intro h
    unfold run_secondary_cycle
    rw [if_neg (by simpa [List.isEmpty_iff] using h)]
    exact ⟨rfl, rfl⟩

/-- Scenario market feed for the C5 witness: polygon and marketaux return
zero items, fmp returns one fresh item. -/
def scenarioFetch : String → List NewsItem := fun p =>
  if p = "fmp" then [NewsItem.mk "n5" "CCC" "h" "s" "u" 0] else []

/-- The empty news state. -/
def emptyNewsState : NewsState :=
  ⟨[], fun _ => none, fun _ => none⟩

/-- Witness for C5, the spec §8 rotation scenario: starting at index 0
(polygon), a zero-item cycle advances the index by one modulo the list
length (shown by applying the rotation theorem), two such cycles advance
0 → 1 → 2, the third cycle processes fmp's item leaving the index at 2, and
the item is persisted (breaking, age 0) in the vault document. -/
theorem c5_provider_rotation_witness :
    scenarioFetch "polygon" = [] ∧
      scenarioFetch "marketaux" = [] ∧
      scenarioFetch "fmp" ≠ [] ∧
      run_secondary_cycle scenarioFetch (fun _ => false) 0
          ⟨0, emptyNewsState⟩ = ⟨(0 + 1) % 6, emptyNewsState⟩ ∧
      (run_secondary_cycle scenarioFetch (fun _ => false) 0
          (run_secondary_cycle scenarioFetch (fun _ => false) 0
            (run_secondary_cycle scenarioFetch (fun _ => false) 0
              ⟨0, emptyNewsState⟩))).currentProviderIndex = 2 ∧
      (run_secondary_cycle scenarioFetch (fun _ => false) 0
          (run_secondary_cycle scenarioFetch (fun _ => false) 0
            (run_secondary_cycle scenarioFetch (fun _ => false) 0
              ⟨0, emptyNewsState⟩))).newsState.bkgnews "n5" =
        some ⟨NewsItem.mk "n5" "CCC" "h" "s" "u" 0, 0, NewsCategory.breaking⟩ := by
  have e1 : run_secondary_cycle scenarioFetch (fun _ => false) 0
      ⟨0, emptyNewsState⟩ = ⟨(0 + 1) % 6, emptyNewsState⟩ :=
    (c5_provider_rotation scenarioFetch (fun _ => false) 0
      ⟨0, emptyNewsState⟩).1 rfl
  have e1n : run_secondary_cycle scenarioFetch (fun _ => false) 0
      ⟨0, emptyNewsState⟩ = ⟨1, emptyNewsState⟩ := by rw [e1]
  have e2 : run_secondary_cycle scenarioFetch (fun _ => false) 0
      ⟨1, emptyNewsState⟩ = ⟨2, emptyNewsState⟩ := by
    have := (c5_provider_rotation scenarioFetch (fun _ => false) 0
      ⟨1, emptyNewsState⟩).1 rfl
    rw [this]
    rfl
  have hne : scenarioFetch (secondary_providers.getD
      (⟨2, emptyNewsState⟩ : SecondaryState).currentProviderIndex "") ≠ [] := by
    simp [scenarioFetch, secondary_providers]
  have e3 := (c5_provider_rotation scenarioFetch (fun _ => false) 0
    ⟨2, emptyNewsState⟩).2 hne
  refine ⟨rfl, rfl, by simp [scenarioFetch], e1, ?_, ?_⟩
  · rw [e1n, e2]
    exact e3.1
  · rw [e1n, e2, e3.2]
    show (List.foldl (process_news_item (fun _ => false) 0) emptyNewsState
      (scenarioFetch (secondary_providers.getD 2 ""))).bkgnews "n5" = _
    simp only [secondary_providers, scenarioFetch, List.getD]
    norm_num [List.foldl, process_news_item, emptyNewsState,
      categorize_news_by_age, updDoc]

/-! ## Halt monitor (`src/scanners/halt_monitor.py`) -/

inductive HaltStatus
  | halted
  | resumed
deriving DecidableEq

/-- One parsed halt-feed entry, as built by `_fetch_nasdaq_halts`. -/
structure HaltRecord where
  symbol : String
  haltTime : String
  resumeTime : Option String
  reason : String
  status : HaltStatus
  exchange : String
deriving DecidableEq

/-- A vault document as a key-ordered association list (newest first); keys
are unique.  Python-dict assignment `d[k] = v` replaces any existing entry
for `k`. -/
def insertDoc (m : List (String × HaltRecord)) (k : String) (v : HaltRecord) :
    List (String × HaltRecord) :=
  (k, v) :: m.filter (fun kv => kv.1 ≠ k)

/-- Python `del d[k]` (and a no-op when `k` is absent). -/
def eraseDoc (m : List (String × HaltRecord)) (k : String) :
    List (String × HaltRecord) :=
  m.filter (fun kv => kv.1 ≠ k)

/-- Python `k in d` / `d.get(k)`. -/
def lookupDoc (m : List (String × HaltRecord)) (k : String) :
    Option HaltRecord :=
  (m.find? (fun kv => kv.1 = k)).map (fun kv => kv.2)

/-- The two halt vault documents: `active_halts.json` keyed by symbol and
`halts.json` (historical) keyed by `symbol_timestamp`.  Modelled from the
spec: they are loaded and saved whole through the `FileManager` (not among
the sources), per §4.1 an atomic full replacement. -/
structure HaltState where
  activeHalts : List (String × HaltRecord)
  historicalHalts : List (String × HaltRecord)
deriving DecidableEq

/-- The key `symbol + "_" + int(time.time())` under which a resumed
halt is archived. -/
def halt_id (symbol : String) (t : ℕ) : String :=
  symbol ++ "_" ++ toString t

/-- The body of the per-entry loop in `HaltMonitor._process_halts`:
a "halted" record is inserted into (or overwrites) Active Halts; a
"resumed" record is removed from Active Halts if present and archived into
Historical Halts under the fresh `symbol_timestamp` key. -/
def process_halt_entry (t : ℕ) (st : HaltState) (e : String × HaltRecord) :
    HaltState :=
  match e.2.status with
  | HaltStatus.halted =>
      { st with activeHalts := insertDoc st.activeHalts e.1 e.2 }
  | HaltStatus.resumed =>
      { st with
        activeHalts := eraseDoc st.activeHalts e.1,
        historicalHalts := insertDoc st.historicalHalts (halt_id e.1 t) e.2 }

/-- Embedding of `HaltMonitor._process_halts` over one fetched cycle (`halts.items()`),
at epoch second `t`. -/
def process_halts (t : ℕ) (st : HaltState)
    (halts : List (String × HaltRecord)) : HaltState :=
  halts.foldl (process_halt_entry t) st

theorem lookup_erase_self (m : List (String × HaltRecord)) (k : String) :
    lookupDoc (eraseDoc m k) k = none := by
  unfold lookupDoc eraseDoc
  induction m with
  | nil => rfl
  | cons kv tl ih =>
    by_cases h : kv.1 = k
    · rw [List.filter_cons_of_neg (by simp [h])]
      exact ih
    · rw [List.filter_cons_of_pos (by simp [h]),
        List.find?_cons_of_neg _ (by simp [h])]
      exact ih

/-- C4: a HALTED feed record for symbol `X`, followed in a later cycle
(epoch second `t2`) by a RESUMED feed record for `X`, leaves `X` absent from
the Active Halts document and present exactly once in the Historical Halts
document, archived under the fresh identity `X_t2` that disambiguates
repeated halts of the same symbol — provided the history held no record for
`X` beforehand. -/
theorem c4_halt_lifecycle (st : HaltState) (x : String) (t1 t2 : ℕ)
    (rec1 rec2 : HaltRecord)
    (hhist : ∀ kv ∈ st.historicalHalts, kv.2.symbol ≠ x)
    (h1 : rec1.status = HaltStatus.halted)
    (h2 : rec2.status = HaltStatus.resumed)
    (h2s : rec2.symbol = x) :
    lookupDoc (process_halts t2 (process_halts t1 st [(x, rec1)])
        [(x, rec2)]).activeHalts x = none ∧
      ((process_halts t2 (process_halts t1 st [(x, rec1)])
          [(x, rec2)]).historicalHalts.filter
        (fun kv => kv.2.symbol = x)).length = 1 ∧
      lookupDoc (process_halts t2 (process_halts t1 st [(x, rec1)])
        [(x, rec2)]).historicalHalts (halt_id x t2) = some rec2 := by
  unfold process_halts
  simp only [List.foldl_cons, List.foldl_nil]
  unfold process_halt_entry
  simp only [h1, h2]
  refine ⟨lookup_erase_self _ x, ?_, ?_⟩
  · unfold insertDoc
    rw [List.filter_cons_of_pos (by simpa using h2s)]
    have hz : (st.historicalHalts.filter
          (fun kv => kv.1 ≠ halt_id x t2)).filter
        (fun kv => kv.2.symbol = x) = [] := by
      rw [List.filter_eq_nil_iff]
      intro kv hkv
      have := hhist kv (List.mem_of_mem_filter hkv)
      simp [this]
    rw [hz]
    rfl
  · unfold insertDoc lookupDoc
    rw [List.find?_cons_of_pos _ (by simp)]
    rfl

/-- A concrete halted record for the halt witnesses. -/
def sampleHaltRec : HaltRecord :=
  ⟨"AAA", "10:00", none, "LUDP", HaltStatus.halted, "NASDAQ"⟩

/-- A concrete resumed record for the halt witnesses. -/
def sampleResumeRec : HaltRecord :=
  ⟨"AAA", "10:00", some "10:05", "LUDP", HaltStatus.resumed, "NASDAQ"⟩

/-- Witness for C4: starting from empty vaults, AAA halted at epoch 100 and
resumed at epoch 200 ends absent from Active Halts and archived exactly once
in Historical Halts under the key `AAA_200`. -/
theorem c4_halt_lifecycle_witness :
    (∀ kv ∈ (⟨[], []⟩ : HaltState).historicalHalts, kv.2.symbol ≠ "AAA") ∧
      sampleHaltRec.status = HaltStatus.halted ∧
      sampleResumeRec.status = HaltStatus.resumed ∧
      sampleResumeRec.symbol = "AAA" ∧
      (lookupDoc (process_halts 200 (process_halts 100 ⟨[], []⟩
          [("AAA", sampleHaltRec)]) [("AAA", sampleResumeRec)]).activeHalts
          "AAA" = none ∧
        ((process_halts 200 (process_halts 100 ⟨[], []⟩
            [("AAA", sampleHaltRec)]) [("AAA", sampleResumeRec)]).historicalHalts.filter
          (fun kv => kv.2.symbol = "AAA")).length = 1 ∧
        lookupDoc (process_halts 200 (process_halts 100 ⟨[], []⟩
            [("AAA", sampleHaltRec)])
          [("AAA", sampleResumeRec)]).historicalHalts (halt_id "AAA" 200) =
          some sampleResumeRec) :=
  ⟨by simp, rfl, rfl, rfl,
    c4_halt_lifecycle ⟨[], []⟩ "AAA" 100 200 sampleHaltRec sampleResumeRec
      (by simp) rfl rfl rfl⟩

theorem erase_absent_eq_self (m : List (String × HaltRecord)) (k : String)
    (h : lookupDoc m k = none) : eraseDoc m k = m := by
  unfold lookupDoc at h
  unfold eraseDoc
  apply List.filter_eq_self.mpr
  intro kv hkv
  cases hf : List.find? (fun kv => decide (kv.1 = k)) m with
  | some v => rw [hf] at h; cases h
  | none => simpa using List.find?_eq_none.mp hf kv hkv

/-- C10: a "resumed" feed entry for a symbol `X` that is not currently
present in the Active Halts document is not a pure no-op: the Active Halts
document is left exactly as it was (the removal branch only fires when the
symbol is present), yet the record is still inserted into the Historical
Halts document under the fresh `X_timestamp` key, where it can be looked
up. -/
theorem c10_lone_resume (st : HaltState) (x : String) (t : ℕ)
    (rec : HaltRecord)
    (habs : lookupDoc st.activeHalts x = none)
    (hres : rec.status = HaltStatus.resumed) :
    (process_halts t st [(x, rec)]).activeHalts = st.activeHalts ∧
      (process_halts t st [(x, rec)]).historicalHalts =
        insertDoc st.historicalHalts (halt_id x t) rec ∧
      lookupDoc (process_halts t st [(x, rec)]).historicalHalts
        (halt_id x t) = some rec := by
  unfold process_halts
  simp only [List.foldl_cons, List.foldl_nil]
  unfold process_halt_entry
  simp only [hres]
  refine ⟨erase_absent_eq_self _ _ habs, by trivial, ?_⟩
  unfold insertDoc lookupDoc
  rw [List.find?_cons_of_pos _ (by simp)]
  rfl

/-- Witness for C10: a lone RESUMED for BBB against an Active Halts document
holding only AAA leaves Active Halts unchanged and archives the record under
`BBB_300`. -/
theorem c10_lone_resume_witness :
    lookupDoc [("AAA", sampleHaltRec)] "BBB" = none ∧
      (⟨"BBB", "11:00", some "11:05", "LUDP", HaltStatus.resumed,
          "NASDAQ"⟩ : HaltRecord).status = HaltStatus.resumed ∧
      ((process_halts 300 ⟨[("AAA", sampleHaltRec)], []⟩
          [("BBB", ⟨"BBB", "11:00", some "11:05", "LUDP",
            HaltStatus.resumed, "NASDAQ"⟩)]).activeHalts =
          [("AAA", sampleHaltRec)] ∧
        (process_halts 300 ⟨[("AAA", sampleHaltRec)], []⟩
          [("BBB", ⟨"BBB", "11:00", some "11:05", "LUDP",
            HaltStatus.resumed, "NASDAQ"⟩)]).historicalHalts =
          insertDoc [] (halt_id "BBB" 300)
            ⟨"BBB", "11:00", some "11:05", "LUDP", HaltStatus.resumed,
              "NASDAQ"⟩ ∧
        lookupDoc (process_halts 300 ⟨[("AAA", sampleHaltRec)], []⟩
            [("BBB", ⟨"BBB", "11:00", some "11:05", "LUDP",
              HaltStatus.resumed, "NASDAQ"⟩)]).historicalHalts
          (halt_id "BBB" 300) =
          some ⟨"BBB", "11:00", some "11:05", "LUDP", HaltStatus.resumed,
            "NASDAQ"⟩) :=
  ⟨by decide, rfl,
    c10_lone_resume ⟨[("AAA", sampleHaltRec)], []⟩ "BBB" 300
      ⟨"BBB", "11:00", some "11:05", "LUDP", HaltStatus.resumed, "NASDAQ"⟩
      (by decide) rfl⟩

/-! ## Tier-2: Alpaca validator (`src/scanners/tier2_alpaca.py`) -/

/-- A per-symbol snapshot dictionary.  Tier-2's `validated_data[symbol]` and
Tier-3's `live_data[symbol]` use the same keys; a field is `none` when its
key is absent.  (`volumeAvg`/`floatShares` back the `volume_avg` / `float`
keys that Tier-3's enrichment reads with a default.) -/
structure Snapshot where
  symbol : Option String
  bid : Option ℚ
  ask : Option ℚ
  bidSize : Option ℚ
  askSize : Option ℚ
  price : Option ℚ
  volume : Option ℚ
  timestamp : Option ℚ
  lastUpdate : Option ℚ
  volumeAvg : Option ℚ
  floatShares : Option ℚ
deriving DecidableEq

/-- The fresh snapshot `self.validated_data[symbol]` starts as an empty dict. -/
def emptySnapshot : Snapshot :=
  ⟨none, none, none, none, none, none, none, none, none, none, none⟩

/-- A live quote message as read by `AlpacaValidator._handle_quote`; a price
or size field is `none` when missing (falsy). -/
structure QuoteTick where
  symbol : String
  bidPrice : Option ℚ
  askPrice : Option ℚ
  bidSize : Option ℚ
  askSize : Option ℚ
deriving DecidableEq

/-- A live trade message as read by `AlpacaValidator._handle_trade`. -/
structure TradeTick where
  symbol : String
  price : ℚ
  size : ℚ
  timestamp : ℚ
deriving DecidableEq

/-- Embedding of `AlpacaValidator._handle_quote` at wall-clock time `now`
(`datetime.utcnow()`): get-or-create the symbol's snapshot and update only
`symbol`, `bid`, `ask`, `bid_size`, `ask_size` (each falsy source value
becoming 0) and `last_update`. -/
def handle_quote (m : String → Option Snapshot) (q : QuoteTick) (now : ℚ) :
    String → Option Snapshot :=
  let s0 := (m q.symbol).getD emptySnapshot
  let s1 := { s0 with
    symbol := some q.symbol,
    bid := some (q.bidPrice.getD 0),
    ask := some (q.askPrice.getD 0),
    bidSize := some (q.bidSize.getD 0),
    askSize := some (q.askSize.getD 0),
    lastUpdate := some now }
  fun k => if k = q.symbol then some s1 else m k

/-- Embedding of `AlpacaValidator._handle_trade`: get-or-create the symbol's snapshot and
update only `price`, `volume`, `timestamp` (the trade's own timestamp). -/
def handle_trade (m : String → Option Snapshot) (tr : TradeTick) :
    String → Option Snapshot :=
  let s0 := (m tr.symbol).getD emptySnapshot
  let s1 := { s0 with
    price := some tr.price,
    volume := some tr.size,
    timestamp := some tr.timestamp }
  fun k => if k = tr.symbol then some s1 else m k

/-- C8: the Tier-2 partial-field merges are idempotent and touch only
their own fields.  Re-applying an identical quote tick (at the same
wall-clock reading) or an identical trade tick to the snapshot map yields
the same map as applying it once; a quote merge leaves the trade-owned
fields `price`, `volume`, `timestamp` of its symbol's snapshot (and every
other symbol's whole snapshot) unchanged, and a trade merge likewise leaves
the quote-owned fields `bid`, `ask`, `bid_size`, `ask_size`, `last_update`
unchanged. -/
theorem c8_tier2_merge_idempotent (m : String → Option Snapshot)
    (q : QuoteTick) (tr : TradeTick) (now : ℚ) :
    handle_quote (handle_quote m q now) q now = handle_quote m q now ∧
    handle_trade (handle_trade m tr) tr = handle_trade m tr ∧
    (∀ k, k ≠ q.symbol → handle_quote m q now k = m k) ∧
    (∀ k, k ≠ tr.symbol → handle_trade m tr k = m k) ∧
    ((handle_quote m q now q.symbol).map Snapshot.price =
        some ((m q.symbol).getD emptySnapshot).price ∧
      (handle_quote m q now q.symbol).map Snapshot.volume =
        some ((m q.symbol).getD emptySnapshot).volume ∧
      (handle_quote m q now q.symbol).map Snapshot.timestamp =
        some ((m q.symbol).getD emptySnapshot).timestamp) ∧
    ((handle_trade m tr tr.symbol).map Snapshot.bid =
        some ((m tr.symbol).getD emptySnapshot).bid ∧
      (handle_trade m tr tr.symbol).map Snapshot.ask =
        some ((m tr.symbol).getD emptySnapshot).ask ∧
      (handle_trade m tr tr.symbol).map Snapshot.bidSize =
        some ((m tr.symbol).getD emptySnapshot).bidSize ∧
      (handle_trade m tr tr.symbol).map Snapshot.askSize =
        some ((m tr.symbol).getD emptySnapshot).askSize ∧
      (handle_trade m tr tr.symbol).map Snapshot.lastUpdate =
        some ((m tr.symbol).getD emptySnapshot).lastUpdate) := by
  refine ⟨?_, ?_, ?_, ?_, ?_, ?_⟩
  · funext k
    unfold handle_quote
    by_cases h : k = q.symbol <;> simp [h]
  · funext k
    unfold handle_trade
    by_cases h : k = tr.symbol <;> simp [h]
  · intro k h
    unfold handle_quote
    simp [h]
  · intro k h
    unfold handle_trade
    simp [h]
  · unfold handle_quote
    simp
  · unfold handle_trade
    simp

/-- Witness for C8 at a concrete map, quote and trade. -/
theorem c8_tier2_merge_idempotent_witness :
    (("ZZZ" : String) ≠ (QuoteTick.mk "AAA" (some 1) (some 2) (some 3)
        (some 4)).symbol) ∧
      handle_quote (handle_quote (fun _ => none)
          (QuoteTick.mk "AAA" (some 1) (some 2) (some 3) (some 4)) 60)
          (QuoteTick.mk "AAA" (some 1) (some 2) (some 3) (some 4)) 60 =
        handle_quote (fun _ => none)
          (QuoteTick.mk "AAA" (some 1) (some 2) (some 3) (some 4)) 60 ∧
      handle_quote (fun _ => none)
          (QuoteTick.mk "AAA" (some 1) (some 2) (some 3) (some 4)) 60 "ZZZ" =
        (fun (_ : String) => (none : Option Snapshot)) "ZZZ" :=
  ⟨by decide,
    (c8_tier2_merge_idempotent (fun _ => none)
      (QuoteTick.mk "AAA" (some 1) (some 2) (some 3) (some 4))
      (TradeTick.mk "AAA" 5 6 7) 60).1,
    (c8_tier2_merge_idempotent (fun _ => none)
      (QuoteTick.mk "AAA" (some 1) (some 2) (some 3) (some 4))
      (TradeTick.mk "AAA" 5 6 7) 60).2.2.1 "ZZZ" (by decide)⟩

/-! ## Tier-3: Tradier categorizer (`src/scanners/tier3_tradier.py`) -/

/-- Tier-3's rolling per-symbol state (`self.prev_closes`, `self.day_highs`,
`self.price_history`); a symbol absent from a dict maps to `none` / `[]`.
History entries are `(timestamp in seconds, price)` pairs. -/
structure RollingState where
  prevCloses : String → Option ℚ
  dayHighs : String → Option ℚ
  priceHistory : String → List (ℚ × ℚ)

/-- The lookup `next((s for s in validated if s.get('symbol') == symbol), default empty)`. -/
def validated_lookup (validated : List Snapshot) (symbol : String) :
    Snapshot :=
  (validated.find? (fun s => s.symbol == some symbol)).getD emptySnapshot

/-- The dict merge of validated_data under live_data: a key present in the live dict
overrides the validated one. -/
def mergeSnap (vd live : Snapshot) : Snapshot :=
  { symbol := live.symbol <|> vd.symbol
    bid := live.bid <|> vd.bid
    ask := live.ask <|> vd.ask
    bidSize := live.bidSize <|> vd.bidSize
    askSize := live.askSize <|> vd.askSize
    price := live.price <|> vd.price
    volume := live.volume <|> vd.volume
    timestamp := live.timestamp <|> vd.timestamp
    lastUpdate := live.lastUpdate <|> vd.lastUpdate
    volumeAvg := live.volumeAvg <|> vd.volumeAvg
    floatShares := live.floatShares <|> vd.floatShares }

/-- The midpoint `(bid + ask) / 2 if bid and ask else 0` over
`enriched.get('bid', 0)` / `enriched.get('ask', 0)`. -/
def mid_or_zero (e : Snapshot) : ℚ :=
  if e.bid.getD 0 ≠ 0 ∧ e.ask.getD 0 ≠ 0 then
    (e.bid.getD 0 + e.ask.getD 0) / 2
  else 0

/-- The tick's price `live_data.get('price')`, falling back to the bid/ask midpoint
when falsy. -/
def tick_price (e : Snapshot) (live : Snapshot) : ℚ :=
  match live.price with
  | some p => if p = 0 then mid_or_zero e else p
  | none => mid_or_zero e

/-- The transient per-tick Enriched Record built by
`TradierCategorizer._enrich_stock_data`: the merged snapshot fields plus the
derived analytics. -/
structure EnrichedRecord where
  symbol : Option String
  bid : Option ℚ
  ask : Option ℚ
  bidSize : Option ℚ
  askSize : Option ℚ
  volume : Option ℚ
  timestamp : Option ℚ
  lastUpdate : Option ℚ
  price : ℚ
  gapPct : ℚ
  isHod : Bool
  hodPrice : ℚ
  rvol : ℚ
  rvol5min : ℚ
  move5min : ℚ
  move10min : ℚ
  floatShares : ℚ
  hasBreakingNews : Bool
  newsAgeHours : ℚ
deriving DecidableEq

/-- Embedding of `TradierCategorizer._enrich_stock_data` at wall-clock time `now`
(seconds): merge the vault's validated entry with the live dict, derive
price, gap %, day-high / `is_hod`, rvol, the pruned 15-minute price history
with the 5- and 10-minute momentum moves, float and the breaking-news
fields — and mutate the rolling state (day-high bump, history
append-and-prune) in the process.  `bkgnewsTs` is the breaking-news vault
keyed view used by `symbol in bkgnews` and the timestamp lookup, with the
timestamp already parsed to seconds. -/
def enrich_stock_data (validated : List Snapshot)
    (bkgnewsTs : String → Option ℚ) (now : ℚ) (st : RollingState)
    (symbol : String) (live : Snapshot) : EnrichedRecord × RollingState :=
  let e := mergeSnap (validated_lookup validated symbol) live
  let price := tick_price e live
  let prevClose := (st.prevCloses symbol).getD price
  let gapPct := if 0 < prevClose then (price - prevClose) / prevClose * 100
    else 0
  let currentHigh := (st.dayHighs symbol).getD price
  let isHod := decide (currentHigh < price)
  let dayHighs2 := if currentHigh < price then
      (fun k => if k = symbol then some price else st.dayHighs k)
    else st.dayHighs
  let hodPrice := (dayHighs2 symbol).getD price
  let currentVol := live.volume.getD 0
  let avgVol := e.volumeAvg.getD 1000000
  let rvol := if 0 < avgVol then currentVol / avgVol else 0
  let hist := (st.priceHistory symbol ++ [(now, price)]).filter
    (fun tp => now - 900 < tp.1)
  let old5 := hist.filter (fun tp => tp.1 ≤ now - 300)
  let move5 := match old5.getLast? with
    | some tp => if 0 < tp.2 then (price - tp.2) / tp.2 * 100 else 0
    | none => 0
  let old10 := hist.filter (fun tp => tp.1 ≤ now - 600)
  let move10 := match old10.getLast? with
    | some tp => if 0 < tp.2 then (price - tp.2) / tp.2 * 100 else 0
    | none => 0
  (⟨e.symbol, e.bid, e.ask, e.bidSize, e.askSize, e.volume, e.timestamp,
      e.lastUpdate, price, gapPct, isHod, hodPrice, rvol, rvol, move5,
      move10, e.floatShares.getD 50000000, (bkgnewsTs symbol).isSome,
      match bkgnewsTs symbol with
      | some ts => (now - ts) / 3600
      | none => 999⟩,
    { st with
      dayHighs := dayHighs2,
      priceHistory := fun k => if k = symbol then hist else st.priceHistory k })

/-- One inbound Tier-3 tick together with the vault inputs the enrichment
reads while handling it. -/
structure Tick where
  validated : List Snapshot
  bkgnewsTs : String → Option ℚ
  now : ℚ
  symbol : String
  live : Snapshot

/-- The rolling state threaded through a sequence of ticks, each handled by
`_enrich_stock_data`. -/
def run_ticks (ticks : List Tick) (st : RollingState) : RollingState :=
  ticks.foldl
    (fun s tk =>
      (enrich_stock_data tk.validated tk.bkgnewsTs tk.now s tk.symbol
        tk.live).2) st

theorem dayHighs_step_mono (tk : Tick) (st : RollingState) (sym : String)
    (h : ℚ) (hd : st.dayHighs sym = some h) :
    ∃ h2, ((enrich_stock_data tk.validated tk.bkgnewsTs tk.now st tk.symbol
        tk.live).2).dayHighs sym = some h2 ∧ h ≤ h2 := by
  unfold enrich_stock_data
  simp only
  by_cases hc : (st.dayHighs tk.symbol).getD
      (tick_price (mergeSnap (validated_lookup tk.validated tk.symbol)
        tk.live) tk.live) <
      tick_price (mergeSnap (validated_lookup tk.validated tk.symbol)
        tk.live) tk.live
  · rw [if_pos hc]
    by_cases hs : sym = tk.symbol
    · subst hs
      rw [hd] at hc
      simp only [Option.getD_some] at hc
      exact ⟨_, by simp, le_of_lt hc⟩
    · exact ⟨h, by simp [hs, hd], le_refl h⟩
  · rw [if_neg hc]
    exact ⟨h, hd, le_refl h⟩

theorem dayHighs_run_mono (ticks : List Tick) (st : RollingState)
    (sym : String) (h : ℚ) (hd : st.dayHighs sym = some h) :
    ∃ h2, (run_ticks ticks st).dayHighs sym = some h2 ∧ h ≤ h2 := by
  induction ticks generalizing st h with
  | nil => exact ⟨h, hd, le_refl h⟩
  | cons tk tl ih =>
    obtain ⟨h1, hd1, hle1⟩ := dayHighs_step_mono tk st sym h hd
    obtain ⟨h2, hd2, hle2⟩ := ih _ h1 hd1
    exact ⟨h2, hd2, le_trans hle1 hle2⟩

/-- C7: across any sequence of ticks (in particular any
monotonically-timestamped one), the running day-high Tier-3 records for a
symbol never decreases — any recorded value is only ever replaced by one at
least as large; and on a single tick, the enriched record's `is_hod` flag is
true exactly when the record's price strictly exceeds the day-high held for
the symbol before that tick (a symbol with no recorded prior day-high never
raises the flag). -/
theorem c7_day_high_monotone (ticks : List Tick) (st0 : RollingState)
    (sym0 : String) (h0 : ℚ) (validated : List Snapshot)
    (bkgnewsTs : String → Option ℚ) (now : ℚ) (st : RollingState)
    (sym : String) (live : Snapshot)
    (hd0 : st0.dayHighs sym0 = some h0) :
    (∃ h2, (run_ticks ticks st0).dayHighs sym0 = some h2 ∧ h0 ≤ h2) ∧
      ((enrich_stock_data validated bkgnewsTs now st sym live).1.isHod =
          true ↔
        ∃ h, st.dayHighs sym = some h ∧
          h < (enrich_stock_data validated bkgnewsTs now st sym
            live).1.price) := by
  refine ⟨dayHighs_run_mono ticks st0 sym0 h0 hd0, ?_⟩
  unfold enrich_stock_data
  simp only
  cases hd : st.dayHighs sym with
  | none =>
    simp [hd]
  | some h =>
    simp [hd]

/-- Witness for C7: a two-tick sequence on a state holding day-high 5 for
AAA; the prior high is preserved or raised, and the first tick (price 10
against high 5) raises `is_hod`. -/
theorem c7_day_high_monotone_witness :
    (RollingState.mk (fun _ => none)
        (fun s => if s = "AAA" then some 5 else none)
        (fun _ => [])).dayHighs "AAA" = some 5 ∧
      ((∃ h2, (run_ticks
            [⟨[], fun _ => none, 1000, "AAA",
              { emptySnapshot with price := some 10 }⟩]
            (RollingState.mk (fun _ => none)
              (fun s => if s = "AAA" then some 5 else none)
              (fun _ => []))).dayHighs "AAA" = some h2 ∧ 5 ≤ h2) ∧
        ((enrich_stock_data [] (fun _ => none) 1000
            (RollingState.mk (fun _ => none)
              (fun s => if s = "AAA" then some 5 else none)
              (fun _ => []))
            "AAA" { emptySnapshot with price := some 10 }).1.isHod = true ↔
          ∃ h, (RollingState.mk (fun _ => none)
              (fun s => if s = "AAA" then some 5 else none)
              (fun _ => [])).dayHighs "AAA" = some h ∧
            h < (enrich_stock_data [] (fun _ => none) 1000
              (RollingState.mk (fun _ => none)
                (fun s => if s = "AAA" then some 5 else none)
                (fun _ => []))
              "AAA" { emptySnapshot with price := some 10 }).1.price)) :=
  ⟨by simp,
    c7_day_high_monotone
      [⟨[], fun _ => none, 1000, "AAA",
        { emptySnapshot with price := some 10 }⟩]
      (RollingState.mk (fun _ => none)
        (fun s => if s = "AAA" then some 5 else none)
        (fun _ => []))
      "AAA" 5 [] (fun _ => none) 1000
      (RollingState.mk (fun _ => none)
        (fun s => if s = "AAA" then some 5 else none)
        (fun _ => []))
      "AAA" { emptySnapshot with price := some 10 } (by simp)⟩

/-- A rolling state holding a recorded day-high of 5 for AAA. -/
def cexState : RollingState :=
  ⟨fun _ => none, fun s => if s = "AAA" then some 5 else none, fun _ => []⟩

/-- A live dict for AAA carrying a trade price of 10. -/
def cexLive : Snapshot := { emptySnapshot with price := some 10 }

/-- First enrichment of AAA at price 10 against day-high 5. -/
def cexRun1 : EnrichedRecord × RollingState :=
  enrich_stock_data [] (fun _ => none) 1000 cexState "AAA" cexLive

/-- Second enrichment on the same (per the claim, "unchanged") snapshot,
time and symbol, on the state the first enrichment left behind. -/
def cexRun2 : EnrichedRecord × RollingState :=
  enrich_stock_data [] (fun _ => none) 1000 cexRun1.2 "AAA" cexLive

/-- C6 counterexample: computing the Tier-3 Enriched Record twice on a
fixed snapshot, fixed symbol and fixed time does *not* always yield two
identical records: with a recorded day-high of 5 and a tick price of 10, the
first computation sets `is_hod` and (as a side effect) raises the recorded
day-high to 10, so the second computation returns `is_hod = false` — the
two records differ. -/
theorem c6_enrich_not_idempotent_counterexample :
    cexRun1.1.isHod = true ∧ cexRun2.1.isHod = false ∧
      cexRun2.1 ≠ cexRun1.1 := by
  refine ⟨rfl, rfl, fun h => ?_⟩
  have h2 := congrArg EnrichedRecord.isHod h
  rw [show cexRun2.1.isHod = false from rfl,
    show cexRun1.1.isHod = true from rfl] at h2
  exact Bool.noConfusion h2

theorem filter_self_of_filter (p : α → Bool) (l : List α) :
    (l.filter p).filter p = l.filter p := by
  rw [List.filter_filter]
  simp

/-- C6 amended: recomputing the Enriched Record on unchanged inputs
(same symbol, live snapshot, vault contents and wall-clock time) yields a
second record identical to the first in every field except possibly
`is_hod`, and `is_hod` is false in the second record; in particular
`move_5min` and `move_10min` agree, and whenever the first computation's
`is_hod` was already false the two records coincide entirely.  (The first
computation's day-high bump and history append are what break exact
idempotence.) -/
theorem c6_enrich_second_run (validated : List Snapshot)
    (bkgnewsTs : String → Option ℚ) (now : ℚ) (st : RollingState)
    (symbol : String) (live : Snapshot) :
    (enrich_stock_data validated bkgnewsTs now
        (enrich_stock_data validated bkgnewsTs now st symbol live).2
        symbol live).1 =
      { (enrich_stock_data validated bkgnewsTs now st symbol live).1 with
        isHod := false } := by
  have hpr : ∀ t q : ℚ,
      List.filter (fun tp => decide (t - 900 < tp.1)) [(t, q)] = [(t, q)] := by
    intro t q
    rw [List.filter_cons, List.filter_nil]
    simp only [decide_eq_true_eq]
    rw [if_pos (by linarith)]
  have h5 : ∀ t q : ℚ,
      List.filter (fun tp => decide (tp.1 ≤ t - 300)) [(t, q)] = [] := by
    intro t q
    rw [List.filter_cons, List.filter_nil]
    simp only [decide_eq_true_eq]
    rw [if_neg (by intro h; linarith)]
  have h10 : ∀ t q : ℚ,
      List.filter (fun tp => decide (tp.1 ≤ t - 600)) [(t, q)] = [] := by
    intro t q
    rw [List.filter_cons, List.filter_nil]
    simp only [decide_eq_true_eq]
    rw [if_neg (by intro h; linarith)]
  unfold enrich_stock_data
  simp only
  by_cases hc : (st.dayHighs symbol).getD
      (tick_price (mergeSnap (validated_lookup validated symbol) live) live) <
      tick_price (mergeSnap (validated_lookup validated symbol) live) live
  · simp only [hc, if_true, if_pos rfl, Option.getD_some, lt_irrefl,
      decide_False, if_false, List.filter_append, filter_self_of_filter,
      hpr, h5, h10, List.append_nil]
  · simp only [hc, if_true, if_false, eq_self_iff_true, decide_False,
      List.filter_append, filter_self_of_filter, hpr, h5, h10,
      List.append_nil, decide_eq_false hc]

/-! ## Tier-3 subscription maintenance
(`TradierCategorizer._run_loop` / `_update_subscriptions`) -/

/-- Python `s.isalpha()`: nonempty and every character alphabetic. -/
def py_isalpha (s : String) : Bool :=
  !s.isEmpty && s.toList.all Char.isAlpha

/-- The validity screen of `_update_subscriptions`:
`s and s.isalpha() and 0 < len(s) <= 5`. -/
def tier3_valid_symbol (s : String) : Bool :=
  !s.isEmpty && py_isalpha s && (decide (0 < s.length) &&
    decide (s.length ≤ 5))

/-- Embedding of `TradierCategorizer._update_subscriptions`: take the symbols not yet
subscribed, drop malformed ones, send them in batches of at most 50
(Tradier's per-request symbol limit), and add exactly the sent symbols to
the subscribed set.  Returns the batches sent and the new subscribed set
(the connection and session are assumed established, as in the guard
`if new_symbols and self.ws and self.session_id`). -/
def update_subscriptions (subscribed : List String)
    (symbols : List String) : List (List String) × List String :=
  let newSymbols := symbols.filter (fun s => !subscribed.contains s)
  let symbolList := newSymbols.filter tier3_valid_symbol
  (chunkList 50 symbolList, subscribed ++ symbolList)

/-- The subscription-set union computed by one `_run_loop` poll cycle:
symbols of the validated entries (entries lacking a `symbol` key skipped),
the keys of the Active Halts document, and the keys of the breaking-news
document `bkgnews.json` — which the news aggregator populates with
provider-assigned news ids, not ticker symbols.  The Python `set()` is
modelled as a duplicate-free list. -/
def run_loop_all_symbols (validated : List Snapshot)
    (activeHalts : List (String × HaltRecord))
    (bkgnews : List (String × StoredNews)) : List String :=
  (validated.filterMap Snapshot.symbol ++ activeHalts.map Prod.fst ++
    bkgnews.map Prod.fst).dedup

/-- A breaking-news vault document holding one item: the news aggregator
stores it under its provider-assigned id "12345", while the item's ticker
symbol is "ABCDE". -/
def c9FailBkgnews : List (String × StoredNews) :=
  [("12345", ⟨⟨"12345", "ABCDE", "h", "s", "u", 0⟩, 0,
    NewsCategory.breaking⟩)]

/-- C9 failing input: with no validated entries, no active halts, a
breaking-news document holding one item for ticker "ABCDE" stored under its
news id "12345", and nothing subscribed yet, the claim says the poll cycle
newly subscribes the breaking-news symbol "ABCDE".  The code instead unions
the document's *keys*: the only candidate is "12345", it is discarded as
malformed (not alphabetic), no batch is sent, and "ABCDE" is not in the
resulting subscribed set. -/
theorem c9_bkgnews_keys_not_symbols :
    run_loop_all_symbols [] [] c9FailBkgnews = ["12345"] ∧
      tier3_valid_symbol "12345" = false ∧
      (update_subscriptions [] (run_loop_all_symbols [] []
        c9FailBkgnews)).1 = [] ∧
      "ABCDE" ∉ (update_subscriptions [] (run_loop_all_symbols [] []
        c9FailBkgnews)).2 := by
  refine ⟨by decide, by decide, ?_, by decide⟩
  show chunkList 50 (List.filter tier3_valid_symbol
    (List.filter (fun s => !([] : List String).contains s)
      (run_loop_all_symbols [] [] c9FailBkgnews))) = []
  rw [show List.filter tier3_valid_symbol
      (List.filter (fun s => !([] : List String).contains s)
        (run_loop_all_symbols [] [] c9FailBkgnews)) = [] from by decide]
  simp [chunkList]

end SignalScan
